import Mathlib

/-!
Verification of the FastImageViewer image reviewer (src/image_viewer.cpp).

The development shallowly embeds the review-relevant parts of the program:
the image catalog records (`RawImage`, mirroring `struct RawImage`), the
persistence sink directory of symlink markers (`Sink`, mirroring the
`chosen/` directory manipulated via `fs::create_symlink` / `fs::remove`),
the review state machine (`setReviewStatusWith`, mirroring
`setReviewStatus` with its try/catch around the filesystem side effects),
the startup recovery scan (`recoveryScan`, mirroring the `fs::exists`
check in `main`'s load loop), the bulk decode step (`loadImageIntoMemory`,
mirroring the call into `stbi_load` with forced 4-channel output), the
display-cache update (`updateTexture`) and the per-frame drawing
(`renderFrame`, mirroring the rendering block of the main loop), and the
cursor navigation arithmetic (`navigateNext` / `navigatePrev`, mirroring
the SDLK_RIGHT / SDLK_LEFT handlers).

Filesystem operations are modelled explicitly: the sink is an association
list from marker filename to link target, and each state-machine run
records the list of filesystem operations it actually performed together
with whether a filesystem exception was caught and logged.  Fault
injection (`fault : FsOp → Bool`) models an individual filesystem call
throwing, with the C++ `catch` block keeping the partial sink state.
-/

namespace FastImageViewer

/-- Review states of `enum class ImageStatus`: `Neutral`, `Good`
(the spec's Accepted), `Bad` (the spec's Rejected). -/
inductive ImageStatus
  | Neutral
  | Good
  | Bad
  deriving DecidableEq, Repr

/-- One catalog record, mirroring `struct RawImage`.  The raw pixel
pointer is modelled as `Option (List Nat)`: `none` is the null pointer,
`some bytes` a buffer holding `bytes`. -/
structure RawImage where
  filename : String
  fullPath : String
  width : Nat
  height : Nat
  channels : Nat
  data : Option (List Nat)
  loaded : Bool
  status : ImageStatus
  deriving DecidableEq, Repr

/-- Zero-initialized record, as produced by `g_images.resize(count)`
(value-initialization: null data pointer, `loaded = false`,
default `Neutral` status). -/
instance : Inhabited RawImage :=
  ⟨⟨"", "", 0, 0, 0, none, false, ImageStatus.Neutral⟩⟩

/-- The persistence sink (the `chosen/` output directory): an association
list of (marker filename, symlink target full path). -/
abbrev Sink := List (String × String)

/-- Mirrors `fs::exists(g_chosenDir / filename)`. -/
def sinkHas (sink : Sink) (name : String) : Bool :=
  sink.any (fun p => p.fst == name)

/-- Mirrors `fs::remove(linkPath)`: the directory entry named `name`
is gone afterwards. -/
def sinkRemove (sink : Sink) (name : String) : Sink :=
  sink.filter (fun p => p.fst != name)

/-- Mirrors `fs::create_symlink(fullPath, linkPath)`. -/
def sinkCreate (sink : Sink) (name target : String) : Sink :=
  (name, target) :: sink

/-- The marker filenames present in the sink directory. -/
def sinkNames (sink : Sink) : List String :=
  sink.map Prod.fst

/-- Number of directory entries named `name` in the sink. -/
def sinkCount (sink : Sink) (name : String) : Nat :=
  (sinkNames sink).count name

/-- A filesystem side effect performed by the review state machine. -/
inductive FsOp
  | removeMarker (name : String)
  | createMarker (name target : String)
  deriving DecidableEq, Repr

/-- Effect of one filesystem operation on the sink directory. -/
def applyOp (sink : Sink) : FsOp → Sink
  | FsOp.removeMarker name => sinkRemove sink name
  | FsOp.createMarker name target => sinkCreate sink name target

/-- Runs a sequence of filesystem operations inside the `try` block of
`setReviewStatus`.  `fault op = true` models the call for `op` throwing a
`std::exception`; execution then stops (the rest of the `try` block is
skipped) and control reaches the `catch`, which logs.  Returns the final
sink, the operations actually performed, and whether an exception was
caught (and logged). -/
def runOps (fault : FsOp → Bool) : Sink → List FsOp → Sink × List FsOp × Bool
  | sink, [] => (sink, [], false)
  | sink, op :: rest =>
    if fault op then (sink, [], true)
    else
      let r := runOps fault (applyOp sink op) rest
      (r.fst, op :: r.snd.fst, r.snd.snd)

/-- Result of one `setReviewStatus` call: the updated record, the updated
sink directory, the filesystem operations performed, and whether a
filesystem error was caught and logged. -/
structure ReviewResult where
  img : RawImage
  sink : Sink
  performed : List FsOp
  logged : Bool
  deriving DecidableEq, Repr

/-- The filesystem operations the body of `setReviewStatus` attempts for a
transition to `newStatus` (lines 91-108 of the source): to `Good`, remove
a pre-existing marker then create the symlink; otherwise remove the marker
when one exists. -/
def statusOps (img : RawImage) (sink : Sink) (newStatus : ImageStatus) : List FsOp :=
  if newStatus = ImageStatus.Good then
    (if sinkHas sink img.filename then [FsOp.removeMarker img.filename] else [])
      ++ [FsOp.createMarker img.filename img.fullPath]
  else
    if sinkHas sink img.filename then [FsOp.removeMarker img.filename] else []

/-- Mirrors `setReviewStatus(RawImage&, ImageStatus)` under fault
injection: the no-op guard `if (img.status == newStatus) return;`, then
the in-memory status assignment (which precedes the `try` block), then the
filesystem side effects with exceptions caught and logged. -/
def setReviewStatusWith (fault : FsOp → Bool) (img : RawImage) (sink : Sink)
    (newStatus : ImageStatus) : ReviewResult :=
  if img.status = newStatus then ⟨img, sink, [], false⟩
  else
    let r := runOps fault sink (statusOps img sink newStatus)
    ⟨{ img with status := newStatus }, r.fst, r.snd.fst, r.snd.snd⟩

/-- Fault model of a healthy filesystem: no call throws. -/
def noFault : FsOp → Bool := fun _ => false

/-- Runs `setReviewStatus` on a healthy filesystem. -/
def setReviewStatus (img : RawImage) (sink : Sink) (newStatus : ImageStatus) :
    ReviewResult :=
  setReviewStatusWith noFault img sink newStatus

/-- The `MarkAccepted` command (SDLK_UP handler):
`setReviewStatus(img, ImageStatus::Good)`. -/
def markAccepted (img : RawImage) (sink : Sink) : ReviewResult :=
  setReviewStatus img sink ImageStatus.Good

/-- The `MarkRejectedOrToggle` command (SDLK_DOWN handler): `Good`
toggles to `Neutral`, anything else goes to `Bad`. -/
def markRejectedOrToggle (img : RawImage) (sink : Sink) : ReviewResult :=
  setReviewStatus img sink
    (if img.status = ImageStatus.Good then ImageStatus.Neutral else ImageStatus.Bad)

/-- The `MarkAccepted` command applied to the record at cursor `i`. -/
def keyUpCommand (images : List RawImage) (sink : Sink) (i : Nat) :
    List RawImage × Sink :=
  let r := markAccepted (images.getD i default) sink
  (images.set i r.img, r.sink)

/-- The `MarkRejectedOrToggle` command applied to the record at cursor `i`. -/
def keyDownCommand (images : List RawImage) (sink : Sink) (i : Nat) :
    List RawImage × Sink :=
  let r := markRejectedOrToggle (images.getD i default) sink
  (images.set i r.img, r.sink)

/-- Startup recovery for one record (lines 210-213 of the source): if the
sink already holds a marker for the record's filename, initialize its
status to `Good`. -/
def recoverStatus (sink : Sink) (img : RawImage) : RawImage :=
  if sinkHas sink img.filename then { img with status := ImageStatus.Good } else img

/-- Startup recovery scan over the whole catalog. -/
def recoveryScan (sink : Sink) (images : List RawImage) : List RawImage :=
  images.map (recoverStatus sink)

/-- The persistence invariant: a marker named `name` exists in the sink
directory iff some catalog record has filename `name` and status `Good`. -/
def markerInvariant (images : List RawImage) (sink : Sink) : Prop :=
  ∀ name : String, sinkHas sink name = true ↔
    ∃ j : Nat, ∃ h : j < images.length,
      (images.get ⟨j, h⟩).filename = name ∧
      (images.get ⟨j, h⟩).status = ImageStatus.Good

/-- A successful decode result from the third-party decoder
(`stbi_load` with `req_comp = 4`): reported dimensions, the channel count
of the source file, and the returned pixel bytes. -/
structure Decoded where
  width : Nat
  height : Nat
  channelsInFile : Nat
  bytes : List Nat
  deriving DecidableEq, Repr

/-- Mirrors `loadImageIntoMemory(RawImage&)`: call the decoder on the
record's full path; on success store the buffer and mark `loaded`, on
failure leave a null pointer and mark not loaded. -/
def loadImageIntoMemory (decode : String → Option Decoded) (img : RawImage) :
    RawImage :=
  match decode img.fullPath with
  | some d =>
      { img with width := d.width, height := d.height,
                 channels := d.channelsInFile, data := some d.bytes, loaded := true }
  | none => { img with data := none, loaded := false }

/-- The bulk load phase: every record is decoded exactly once. -/
def loadPhase (decode : String → Option Decoded) (images : List RawImage) :
    List RawImage :=
  images.map (loadImageIntoMemory decode)

/-- The single GPU texture (`g_displayTexture`), with the dimensions it
was created for and the pixel content last uploaded into it. -/
structure Texture where
  w : Nat
  h : Nat
  content : List Nat
  deriving DecidableEq, Repr

/-- The display-cache state: `g_displayTexture`, `g_texWidth`,
`g_texHeight`. -/
structure DisplayState where
  displayTexture : Option Texture
  texWidth : Nat
  texHeight : Nat
  deriving DecidableEq, Repr

/-- Observable effects of one `updateTexture` call: texture destruction,
texture creation, the pixel upload (`SDL_UpdateTexture` with its pitch),
and the "[index/total] Viewing: filename" console message. -/
inductive TexEvent
  | destroyTex
  | createTex (w h : Nat)
  | uploadPixels (bytes : List Nat) (pitch : Nat)
  | viewingMsg (idx total : Nat) (name : String)
  deriving DecidableEq, Repr

/-- Mirrors `updateTexture(SDL_Renderer*)`: bail out on an empty catalog
or an unloaded current record; destroy the texture when its tagged
dimensions differ from the current record's; create it (tagged with the
current dimensions) when absent; then unconditionally upload the current
record's pixels and print the viewing message. -/
def updateTexture (images : List RawImage) (currentIndex : Nat) (d : DisplayState) :
    DisplayState × List TexEvent :=
  if images.length = 0 then (d, [])
  else
    match (images.getD currentIndex default).data,
        (images.getD currentIndex default).loaded with
    | some bytes, true =>
      if d.displayTexture.isSome = true ∧
          (d.texWidth ≠ (images.getD currentIndex default).width ∨
           d.texHeight ≠ (images.getD currentIndex default).height) then
        -- destroy the mismatched texture, create a fresh one, upload
        (⟨some ⟨(images.getD currentIndex default).width,
            (images.getD currentIndex default).height, bytes⟩,
          (images.getD currentIndex default).width,
          (images.getD currentIndex default).height⟩,
         [TexEvent.destroyTex,
          TexEvent.createTex (images.getD currentIndex default).width
            (images.getD currentIndex default).height,
          TexEvent.uploadPixels bytes ((images.getD currentIndex default).width * 4),
          TexEvent.viewingMsg (currentIndex + 1) images.length
            (images.getD currentIndex default).filename])
      else if d.displayTexture.isSome = true then
        -- matching dimensions: keep the texture, update its content in place
        (⟨d.displayTexture.map (fun t => ⟨t.w, t.h, bytes⟩), d.texWidth, d.texHeight⟩,
         [TexEvent.uploadPixels bytes ((images.getD currentIndex default).width * 4),
          TexEvent.viewingMsg (currentIndex + 1) images.length
            (images.getD currentIndex default).filename])
      else
        -- no texture yet: create one tagged with the current dimensions, upload
        (⟨some ⟨(images.getD currentIndex default).width,
            (images.getD currentIndex default).height, bytes⟩,
          (images.getD currentIndex default).width,
          (images.getD currentIndex default).height⟩,
         [TexEvent.createTex (images.getD currentIndex default).width
            (images.getD currentIndex default).height,
          TexEvent.uploadPixels bytes ((images.getD currentIndex default).width * 4),
          TexEvent.viewingMsg (currentIndex + 1) images.length
            (images.getD currentIndex default).filename])
    | _, _ => (d, [])

/-- Border colors of the rendering block: lime green for `Good`, crimson
for `Bad`. -/
inductive BorderColor
  | limeGreen
  | crimson
  deriving DecidableEq, Repr

/-- What one pass of the rendering block draws: the background clear, the
texture copied to the window (if any), and the status border (if any). -/
structure FrameOutput where
  clearedBackground : Bool
  drawn : Option Texture
  border : Option BorderColor
  deriving DecidableEq, Repr

/-- Mirrors the rendering block of the main loop (lines 311-357): clear
the background; if a display texture exists, copy it and draw a border
colored by the *current* record's status (`Good` → lime green, `Bad` →
crimson, `Neutral` → none); if no texture exists, draw nothing else. -/
def renderFrame (images : List RawImage) (currentIndex : Nat) (d : DisplayState) :
    FrameOutput :=
  match d.displayTexture with
  | none => ⟨true, none, none⟩
  | some t =>
    let current := images.getD currentIndex default
    ⟨true, some t,
      match current.status with
      | ImageStatus.Good => some BorderColor.limeGreen
      | ImageStatus.Bad => some BorderColor.crimson
      | ImageStatus.Neutral => none⟩

/-- Mirrors the SDLK_RIGHT handler:
`g_currentIndex = (g_currentIndex + 1) % g_images.size()`. -/
def navigateNext (n i : Nat) : Nat := (i + 1) % n

/-- Mirrors the SDLK_LEFT handler:
`g_currentIndex = (g_currentIndex == 0) ? g_images.size() - 1 : g_currentIndex - 1`. -/
def navigatePrev (n i : Nat) : Nat := if i = 0 then n - 1 else i - 1

/-! Concrete fixtures used by witnesses and counterexamples: a 1×1 image
that decodes successfully and a corrupt image whose decode fails. -/

/-- A loaded 1×1 RGBA record ("a.jpg"), review state `Neutral`. -/
def sampleRecord : RawImage :=
  { filename := "a.jpg", fullPath := "/d/a.jpg", width := 1, height := 1,
    channels := 3, data := some [9, 9, 9, 255], loaded := true,
    status := ImageStatus.Neutral }

/-- A record whose decode failed ("b.png"), marked `Bad` by the user. -/
def failedRecord : RawImage :=
  { filename := "b.png", fullPath := "/d/b.png", width := 0, height := 0,
    channels := 0, data := none, loaded := false, status := ImageStatus.Bad }

/-- A fresh (pre-load, pre-recovery) record for "a.jpg". -/
def freshRecordA : RawImage :=
  { filename := "a.jpg", fullPath := "/d/a.jpg", width := 0, height := 0,
    channels := 0, data := none, loaded := false, status := ImageStatus.Neutral }

/-- A fresh (pre-load, pre-recovery) record for "b.png". -/
def freshRecordB : RawImage :=
  { filename := "b.png", fullPath := "/d/b.png", width := 0, height := 0,
    channels := 0, data := none, loaded := false, status := ImageStatus.Neutral }

/-- A sink holding one marker, for "a.jpg". -/
def sampleSink : Sink := [("a.jpg", "/d/a.jpg")]

/-- A decoder that succeeds on "/d/a.jpg" with a 1×1 RGBA buffer and
fails on every other path. -/
def sampleDecode : String → Option Decoded :=
  fun p => if p = "/d/a.jpg" then some ⟨1, 1, 3, [7, 7, 7, 255]⟩ else none

/-- An empty display-cache state (no texture yet). -/
def emptyDisplay : DisplayState := ⟨none, 0, 0⟩

/-! Helper lemmas about the sink directory and filesystem runs. -/

theorem sinkHas_iff (sink : Sink) (name : String) :
    sinkHas sink name = true ↔ ∃ p ∈ sink, p.fst = name := by
  simp [sinkHas, List.any_eq_true]

theorem sinkHas_create (sink : Sink) (n t m : String) :
    sinkHas (sinkCreate sink n t) m = true ↔ (n = m ∨ sinkHas sink m = true) := by
  simp [sinkCreate, sinkHas]

theorem sinkHas_remove (sink : Sink) (n m : String) :
    sinkHas (sinkRemove sink n) m = true ↔ (sinkHas sink m = true ∧ m ≠ n) := by
  simp only [sinkHas_iff, sinkRemove, List.mem_filter, bne_iff_ne, ne_eq]
  constructor
  · rintro ⟨p, ⟨hmem, hne⟩, hname⟩
    exact ⟨⟨p, hmem, hname⟩, by simpa [hname] using hne⟩
  · rintro ⟨⟨p, hmem, hname⟩, hne⟩
    exact ⟨p, ⟨hmem, by simpa [hname] using hne⟩, hname⟩

theorem runOps_noFault (sink : Sink) (ops : List FsOp) :
    runOps noFault sink ops = (ops.foldl applyOp sink, ops, false) := by
  induction ops generalizing sink with
  | nil => rfl
  | cons op rest ih => simp [runOps, noFault, ih]

theorem runOps_logged (fault : FsOp → Bool) (sink : Sink) (ops : List FsOp) :
    (runOps fault sink ops).snd.snd = true ↔ ∃ op ∈ ops, fault op = true := by
  induction ops generalizing sink with
  | nil => simp [runOps]
  | cons op rest ih =>
    by_cases hf : fault op = true
    · simp [runOps, hf]
    · simp [runOps, hf, ih]

theorem setReviewStatus_noop (img : RawImage) (sink : Sink) (s : ImageStatus)
    (h : img.status = s) : setReviewStatus img sink s = ⟨img, sink, [], false⟩ := by
  simp [setReviewStatus, setReviewStatusWith, h]

theorem setReviewStatus_step (img : RawImage) (sink : Sink) (s : ImageStatus)
    (h : ¬ img.status = s) :
    setReviewStatus img sink s =
      ⟨{ img with status := s }, (statusOps img sink s).foldl applyOp sink,
        statusOps img sink s, false⟩ := by
  simp [setReviewStatus, setReviewStatusWith, h, runOps_noFault]

theorem sinkCount_create_self (sink : Sink) (n t : String) :
    sinkCount (sinkCreate sink n t) n = sinkCount sink n + 1 := by
  simp [sinkCount, sinkCreate, sinkNames]

theorem sinkCount_remove_self (sink : Sink) (n : String) :
    sinkCount (sinkRemove sink n) n = 0 := by
  rw [sinkCount, List.count_eq_zero]
  intro hmem
  obtain ⟨p, hp, hname⟩ := List.mem_map.mp hmem
  obtain ⟨_, hne⟩ := List.mem_filter.mp hp
  simp [hname] at hne

theorem sinkCount_zero_of_not_has (sink : Sink) (n : String)
    (h : ¬ sinkHas sink n = true) : sinkCount sink n = 0 := by
  rw [sinkCount, List.count_eq_zero]
  intro hmem
  obtain ⟨p, hp, hname⟩ := List.mem_map.mp hmem
  exact h ((sinkHas_iff sink n).mpr ⟨p, hp, hname⟩)

/-! Claim theorems. -/

theorem navigateNext_lt (n i : Nat) (hn : 0 < n) : navigateNext n i < n :=
  Nat.mod_lt _ hn

theorem navigatePrev_lt (n i : Nat) (hn : 0 < n) (hi : i < n) : navigatePrev n i < n := by
  unfold navigatePrev
  split <;> omega

theorem navigateNext_iterate (n : Nat) (hn : 0 < n) :
    ∀ k i : Nat, i < n → (navigateNext n)^[k] i = (i + k) % n := by
  intro k
  induction k with
  | zero => intro i hi; simp [Nat.mod_eq_of_lt hi]
  | succ k ih =>
    intro i hi
    rw [Function.iterate_succ_apply, ih (navigateNext n i) (navigateNext_lt n i hn)]
    show ((i + 1) % n + k) % n = (i + (k + 1)) % n
    rw [Nat.mod_add_mod]
    congr 1
    omega

theorem navigatePrev_eq_mod (n i : Nat) (hn : 0 < n) (hi : i < n) :
    navigatePrev n i = (i + (n - 1)) % n := by
  unfold navigatePrev
  rcases i with _ | j
  · have h1 : n - 1 < n := by omega
    simp [Nat.mod_eq_of_lt h1]
  · have h0 : ¬ (j + 1 = 0) := by omega
    have h1 : j + 1 + (n - 1) = j + n := by omega
    have h2 : j < n := by omega
    simp [h0, h1, Nat.add_mod_right, Nat.mod_eq_of_lt h2]

theorem navigatePrev_iterate (n : Nat) (hn : 0 < n) :
    ∀ k i : Nat, i < n → (navigatePrev n)^[k] i = (i + k * (n - 1)) % n := by
  intro k
  induction k with
  | zero => intro i hi; simp [Nat.mod_eq_of_lt hi]
  | succ k ih =>
    intro i hi
    rw [Function.iterate_succ_apply, ih _ (navigatePrev_lt n i hn hi),
      navigatePrev_eq_mod n i hn hi, Nat.mod_add_mod]
    congr 1
    ring

/-- C5: for every catalog length `n ≥ 1` and cursor `i < n`, `n`
consecutive `NavigateNext` commands return the cursor to `i`, so do `n`
consecutive `NavigatePrevious` commands, and every single navigation
keeps the cursor inside `[0, n)`. -/
theorem c5_navigation_cyclic (n i : Nat) (hn : 1 ≤ n) (hi : i < n) :
    (navigateNext n)^[n] i = i ∧ (navigatePrev n)^[n] i = i ∧
    navigateNext n i < n ∧ navigatePrev n i < n := by
  refine ⟨?_, ?_, navigateNext_lt n i hn, navigatePrev_lt n i hn hi⟩
  · rw [navigateNext_iterate n hn n i hi, Nat.add_mod_right, Nat.mod_eq_of_lt hi]
  · rw [navigatePrev_iterate n hn n i hi, Nat.add_mul_mod_self_left,
      Nat.mod_eq_of_lt hi]

/-- Witness for C5 at `n = 3`, `i = 1`. -/
theorem c5_navigation_cyclic_witness :
    (navigateNext 3)^[3] 1 = 1 ∧ (navigatePrev 3)^[3] 1 = 1 ∧
    navigateNext 3 1 < 3 ∧ navigatePrev 3 1 < 3 :=
  c5_navigation_cyclic 3 1 (by decide) (by decide)

/-- C6: a filesystem fault during marker creation or removal is caught
and logged (the logged flag is set exactly when some attempted operation
faults), and the in-memory record — in particular its review state — is
exactly what it is on a healthy filesystem: the transition is committed
regardless of the side effect's outcome, and the command returns normally
instead of aborting. -/
theorem c6_fs_error_nonfatal (img : RawImage) (sink : Sink) (newStatus : ImageStatus)
    (fault : FsOp → Bool) :
    (setReviewStatusWith fault img sink newStatus).img =
      (setReviewStatus img sink newStatus).img ∧
    ((setReviewStatusWith fault img sink newStatus).logged = true ↔
      (¬ img.status = newStatus ∧ ∃ op ∈ statusOps img sink newStatus, fault op = true)) := by
  by_cases h : img.status = newStatus
  · simp [setReviewStatusWith, setReviewStatus, noFault, h]
  · refine ⟨?_, ?_⟩
    · simp [setReviewStatusWith, setReviewStatus, noFault, h]
    · simp [setReviewStatusWith, h, runOps_logged]

theorem sinkHas_remove_self (sink : Sink) (n : String) :
    sinkHas (sinkRemove sink n) n = false := by
  rw [Bool.eq_false_iff]
  intro hc
  exact ((sinkHas_remove sink n n).mp hc).2 rfl

theorem getD_eq_get (l : List RawImage) (i : Nat) (h : i < l.length) :
    l.getD i default = l.get ⟨i, h⟩ := by
  simp [List.getD_eq_getElem?_getD, List.getElem?_eq_getElem h]

/-- C7: after the load phase over a catalog of `N ≥ 1` records, each
record's outcome is exactly one of loaded or failed, a loaded record
holds a non-null pixel buffer of exactly `width * height * 4` bytes, and
the pixel buffer is non-null iff the outcome is loaded. -/
theorem c7_load_phase_outcomes (decode : String → Option Decoded)
    (images : List RawImage) (hN : 1 ≤ images.length)
    (hdec : ∀ p d, decode p = some d → d.bytes.length = d.width * d.height * 4) :
    ∀ j : Nat, j < (loadPhase decode images).length →
      (((loadPhase decode images).getD j default).loaded = true ∨
        ((loadPhase decode images).getD j default).loaded = false) ∧
      (((loadPhase decode images).getD j default).loaded = true →
        ∃ buf : List Nat, ((loadPhase decode images).getD j default).data = some buf ∧
          buf.length = ((loadPhase decode images).getD j default).width *
            ((loadPhase decode images).getD j default).height * 4) ∧
      (((loadPhase decode images).getD j default).data.isSome = true ↔
        ((loadPhase decode images).getD j default).loaded = true) := by
  intro j h
  have hj : j < images.length := by simpa [loadPhase] using h
  rw [getD_eq_get _ j h]
  have hget : (loadPhase decode images).get ⟨j, h⟩ =
      loadImageIntoMemory decode (images.get ⟨j, hj⟩) := by
    simp [loadPhase]
  rw [hget]
  rcases hd : decode (images.get ⟨j, hj⟩).fullPath with _ | d
  all_goals simp only [List.get_eq_getElem] at hd
  · simp [loadImageIntoMemory, hd]
  · have hlen := hdec _ _ hd
    simp [loadImageIntoMemory, hd, hlen]

/-- Witness for C7: the two-record catalog `[freshRecordA, freshRecordB]`
under `sampleDecode` (succeeds on "/d/a.jpg", fails on "/d/b.png"),
instantiated at both indices. -/
theorem c7_load_phase_outcomes_witness :
    (((loadPhase sampleDecode [freshRecordA, freshRecordB]).getD 0 default).loaded = true ∨
      ((loadPhase sampleDecode [freshRecordA, freshRecordB]).getD 0 default).loaded = false) ∧
    (((loadPhase sampleDecode [freshRecordA, freshRecordB]).getD 0 default).loaded = true →
      ∃ buf : List Nat,
        ((loadPhase sampleDecode [freshRecordA, freshRecordB]).getD 0 default).data = some buf ∧
        buf.length = ((loadPhase sampleDecode [freshRecordA, freshRecordB]).getD 0 default).width *
          ((loadPhase sampleDecode [freshRecordA, freshRecordB]).getD 0 default).height * 4) ∧
    (((loadPhase sampleDecode [freshRecordA, freshRecordB]).getD 0 default).data.isSome = true ↔
      ((loadPhase sampleDecode [freshRecordA, freshRecordB]).getD 0 default).loaded = true) := by
  apply c7_load_phase_outcomes sampleDecode [freshRecordA, freshRecordB] (by decide)
  · intro p d hp
    rw [sampleDecode] at hp
    by_cases hc : p = "/d/a.jpg"
    · rw [hc] at hp
      simp at hp
      rw [← hp]
      rfl
    · simp [hc] at hp
  · decide

/-- C2: `MarkRejectedOrToggle` moves `Good` (Accepted) to `Neutral` and
`Neutral` or `Bad` (Rejected) to `Bad`; when a persistence marker for the
record's filename exists the side effect removes it, and after the
command no marker for the filename remains — in particular a `Bad`
record never has a persisted marker (which is also the hypothesis: a
record already `Bad` carries no marker). -/
theorem c2_mark_rejected_or_toggle (img : RawImage) (sink : Sink)
    (hbad : img.status = ImageStatus.Bad → sinkHas sink img.filename = false) :
    (img.status = ImageStatus.Good →
      (markRejectedOrToggle img sink).img.status = ImageStatus.Neutral) ∧
    (¬ img.status = ImageStatus.Good →
      (markRejectedOrToggle img sink).img.status = ImageStatus.Bad) ∧
    (sinkHas sink img.filename = true →
      (markRejectedOrToggle img sink).performed = [FsOp.removeMarker img.filename]) ∧
    sinkHas (markRejectedOrToggle img sink).sink img.filename = false := by
  rcases hs : img.status with _ | _ | _
  · -- Neutral: guard passes, transition to Bad
    have h1 : markRejectedOrToggle img sink = setReviewStatus img sink ImageStatus.Bad := by
      simp [markRejectedOrToggle, hs]
    rw [h1, setReviewStatus_step img sink ImageStatus.Bad (by simp [hs])]
    by_cases hh : sinkHas sink img.filename = true
    · simp [hs, statusOps, hh, applyOp, sinkHas_remove_self]
    · simp [hs, statusOps, hh, applyOp]
  · -- Good: guard passes, toggle to Neutral
    have h1 : markRejectedOrToggle img sink =
        setReviewStatus img sink ImageStatus.Neutral := by
      simp [markRejectedOrToggle, hs]
    rw [h1, setReviewStatus_step img sink ImageStatus.Neutral (by simp [hs])]
    by_cases hh : sinkHas sink img.filename = true
    · simp [hs, statusOps, hh, applyOp, sinkHas_remove_self]
    · simp [hs, statusOps, hh, applyOp]
  · -- Bad: no-op guard, and by hypothesis no marker exists
    have h1 : markRejectedOrToggle img sink = ⟨img, sink, [], false⟩ := by
      rw [markRejectedOrToggle]
      simp only [hs]
      exact setReviewStatus_noop img sink ImageStatus.Bad hs
    rw [h1]
    have hnm := hbad hs
    refine ⟨by simp [hs], by simp [hs], ?_, hnm⟩
    intro hcontra
    rw [hnm] at hcontra
    cases hcontra

/-- Witness for C2: the `Neutral` record `sampleRecord` with its marker
present in `sampleSink` is moved to `Bad` and the marker is removed. -/
theorem c2_mark_rejected_or_toggle_witness :
    (sampleRecord.status = ImageStatus.Good →
      (markRejectedOrToggle sampleRecord sampleSink).img.status = ImageStatus.Neutral) ∧
    (¬ sampleRecord.status = ImageStatus.Good →
      (markRejectedOrToggle sampleRecord sampleSink).img.status = ImageStatus.Bad) ∧
    (sinkHas sampleSink sampleRecord.filename = true →
      (markRejectedOrToggle sampleRecord sampleSink).performed =
        [FsOp.removeMarker sampleRecord.filename]) ∧
    sinkHas (markRejectedOrToggle sampleRecord sampleSink).sink
      sampleRecord.filename = false :=
  c2_mark_rejected_or_toggle sampleRecord sampleSink (by decide)

/-- C4: applying `MarkAccepted` twice in a row yields the same review
state (`Good`) as once, leaves exactly one persistence marker for the
filename, and the second application performs no filesystem side effects
at all (record, sink and performed-operation list unchanged).
Hypothesis: a record already Accepted holds exactly one marker (the
persistence invariant restricted to this record). -/
theorem c4_mark_accepted_idempotent (img : RawImage) (sink : Sink)
    (hGood : img.status = ImageStatus.Good → sinkCount sink img.filename = 1) :
    (markAccepted (markAccepted img sink).img (markAccepted img sink).sink).img.status
      = ImageStatus.Good ∧
    (markAccepted (markAccepted img sink).img (markAccepted img sink).sink).img
      = (markAccepted img sink).img ∧
    (markAccepted (markAccepted img sink).img (markAccepted img sink).sink).sink
      = (markAccepted img sink).sink ∧
    (markAccepted (markAccepted img sink).img (markAccepted img sink).sink).performed
      = [] ∧
    sinkCount (markAccepted (markAccepted img sink).img (markAccepted img sink).sink).sink
      img.filename = 1 := by
  have hfirst : (markAccepted img sink).img.status = ImageStatus.Good := by
    by_cases hg : img.status = ImageStatus.Good
    · rw [markAccepted, setReviewStatus_noop img sink ImageStatus.Good hg]
      exact hg
    · rw [markAccepted, setReviewStatus_step img sink ImageStatus.Good hg]
  have hsecond : markAccepted (markAccepted img sink).img (markAccepted img sink).sink =
      ⟨(markAccepted img sink).img, (markAccepted img sink).sink, [], false⟩ := by
    rw [markAccepted, setReviewStatus_noop _ _ _ hfirst]
  rw [hsecond]
  refine ⟨hfirst, rfl, rfl, rfl, ?_⟩
  by_cases hg : img.status = ImageStatus.Good
  · rw [markAccepted, setReviewStatus_noop img sink ImageStatus.Good hg]
    exact hGood hg
  · rw [markAccepted, setReviewStatus_step img sink ImageStatus.Good hg]
    by_cases hh : sinkHas sink img.filename = true
    · simp [statusOps, hh, applyOp, sinkCount_create_self, sinkCount_remove_self]
    · simp [statusOps, hh, applyOp, sinkCount_create_self,
        sinkCount_zero_of_not_has sink img.filename hh]

/-- Witness for C4: the `Neutral` record `sampleRecord` over an empty
sink ends `Good` with exactly one marker; the second call does nothing. -/
theorem c4_mark_accepted_idempotent_witness :
    (markAccepted (markAccepted sampleRecord ([] : Sink)).img
      (markAccepted sampleRecord ([] : Sink)).sink).img.status = ImageStatus.Good ∧
    (markAccepted (markAccepted sampleRecord ([] : Sink)).img
      (markAccepted sampleRecord ([] : Sink)).sink).img
      = (markAccepted sampleRecord ([] : Sink)).img ∧
    (markAccepted (markAccepted sampleRecord ([] : Sink)).img
      (markAccepted sampleRecord ([] : Sink)).sink).sink
      = (markAccepted sampleRecord ([] : Sink)).sink ∧
    (markAccepted (markAccepted sampleRecord ([] : Sink)).img
      (markAccepted sampleRecord ([] : Sink)).sink).performed = [] ∧
    sinkCount (markAccepted (markAccepted sampleRecord ([] : Sink)).img
      (markAccepted sampleRecord ([] : Sink)).sink).sink
      sampleRecord.filename = 1 :=
  c4_mark_accepted_idempotent sampleRecord ([] : Sink) (by decide)

theorem updateTexture_not_loaded (images : List RawImage) (i : Nat) (d : DisplayState)
    (hnb : (images.getD i default).loaded = false ∨ (images.getD i default).data = none) :
    updateTexture images i d = (d, []) := by
  rw [updateTexture]
  by_cases hlen : images.length = 0
  · rw [if_pos hlen]
  · rw [if_neg hlen]
    rcases hd : (images.getD i default).data with _ | bytes
    all_goals rcases hl : (images.getD i default).loaded with _ | _
    · rfl
    · rfl
    · rfl
    · rcases hnb with h | h
      · rw [hl] at h
        cases h
      · rw [hd] at h
        cases h

theorem renderFrame_drawn (images : List RawImage) (i : Nat) (d : DisplayState) :
    (renderFrame images i d).drawn = d.displayTexture := by
  rcases hd : d.displayTexture with _ | t <;> simp [renderFrame, hd]

/-- C10: when the active record is not loaded (or its pixel buffer is
null), `updateTexture` leaves the display texture and its tagged width
and height unchanged, and the frame still draws the previously uploaded
texture (if any). -/
theorem c10_stale_texture_persists (images : List RawImage) (i : Nat) (d : DisplayState)
    (hnb : (images.getD i default).loaded = false ∨ (images.getD i default).data = none) :
    (updateTexture images i d).fst.displayTexture = d.displayTexture ∧
    (updateTexture images i d).fst.texWidth = d.texWidth ∧
    (updateTexture images i d).fst.texHeight = d.texHeight ∧
    (renderFrame images i (updateTexture images i d).fst).drawn = d.displayTexture := by
  rw [updateTexture_not_loaded images i d hnb]
  exact ⟨rfl, rfl, rfl, renderFrame_drawn images i d⟩

/-- Witness for C10: after presenting the loaded record at index 0 of
`[sampleRecord, failedRecord]`, navigating to the failed record at
index 1 keeps the old texture and keeps rendering it. -/
theorem c10_stale_texture_persists_witness :
    (updateTexture [sampleRecord, failedRecord] 1
        (updateTexture [sampleRecord, failedRecord] 0 emptyDisplay).fst).fst.displayTexture
      = (updateTexture [sampleRecord, failedRecord] 0 emptyDisplay).fst.displayTexture ∧
    (updateTexture [sampleRecord, failedRecord] 1
        (updateTexture [sampleRecord, failedRecord] 0 emptyDisplay).fst).fst.texWidth
      = (updateTexture [sampleRecord, failedRecord] 0 emptyDisplay).fst.texWidth ∧
    (updateTexture [sampleRecord, failedRecord] 1
        (updateTexture [sampleRecord, failedRecord] 0 emptyDisplay).fst).fst.texHeight
      = (updateTexture [sampleRecord, failedRecord] 0 emptyDisplay).fst.texHeight ∧
    (renderFrame [sampleRecord, failedRecord] 1
        (updateTexture [sampleRecord, failedRecord] 1
          (updateTexture [sampleRecord, failedRecord] 0 emptyDisplay).fst).fst).drawn
      = (updateTexture [sampleRecord, failedRecord] 0 emptyDisplay).fst.displayTexture :=
  c10_stale_texture_persists [sampleRecord, failedRecord] 1
    (updateTexture [sampleRecord, failedRecord] 0 emptyDisplay).fst (by decide)

/-- C3 counterexample: in the catalog `[sampleRecord, failedRecord]`,
present index 0 (creating a texture), then make index 1 — whose decode
failed, so it has no pixel buffer, and which the user marked `Bad` —
the active record: the frame still draws the stale texture of record 0
and draws a crimson border, contradicting "nothing is drawn for that
frame beyond the background clear, and no border is drawn". -/
theorem c3_counterexample :
    ((List.getD [sampleRecord, failedRecord] 1 default).data = none ∧
      (List.getD [sampleRecord, failedRecord] 1 default).loaded = false) ∧
    ¬ ((renderFrame [sampleRecord, failedRecord] 1
        (updateTexture [sampleRecord, failedRecord] 0 emptyDisplay).fst).drawn = none) ∧
    ¬ ((renderFrame [sampleRecord, failedRecord] 1
        (updateTexture [sampleRecord, failedRecord] 0 emptyDisplay).fst).border = none) := by
  decide

/-- C3 (amended): if the active record has no pixel buffer, presenting
it is a no-op on the display cache — no display buffer is created or
modified and no event is emitted — and, when no display buffer exists
from a previously presented record, nothing is drawn for the frame
beyond the background clear and no border is drawn.  (When a buffer from
an earlier record exists, the code keeps drawing that buffer, with a
border according to the active record's state.) -/
theorem c3_amended_no_buffer_presentation (images : List RawImage) (i : Nat)
    (d : DisplayState)
    (hnb : (images.getD i default).loaded = false ∨ (images.getD i default).data = none) :
    updateTexture images i d = (d, []) ∧
    (d.displayTexture = none →
      (renderFrame images i d).clearedBackground = true ∧
      (renderFrame images i d).drawn = none ∧
      (renderFrame images i d).border = none) := by
  refine ⟨updateTexture_not_loaded images i d hnb, ?_⟩
  intro hd
  simp [renderFrame, hd]

/-- Witness for C3 (amended): the failed record alone, with no texture
yet: nothing is created, nothing is drawn, no border. -/
theorem c3_amended_no_buffer_presentation_witness :
    updateTexture [failedRecord] 0 emptyDisplay = (emptyDisplay, []) ∧
    (emptyDisplay.displayTexture = none →
      (renderFrame [failedRecord] 0 emptyDisplay).clearedBackground = true ∧
      (renderFrame [failedRecord] 0 emptyDisplay).drawn = none ∧
      (renderFrame [failedRecord] 0 emptyDisplay).border = none) :=
  c3_amended_no_buffer_presentation [failedRecord] 0 emptyDisplay (by decide)

/-- C8: presenting a loaded active record while a display texture
exists: when the record's dimensions differ from the texture's tagged
dimensions, the texture is destroyed and recreated tagged with the new
dimensions; when they match, the texture object is kept; in both cases
the record's full pixel content is pushed into the buffer
unconditionally (followed by the viewing message). -/
theorem c8_texture_recreation (images : List RawImage) (i : Nat) (d : DisplayState)
    (t : Texture) (bytes : List Nat)
    (hi : i < images.length)
    (hl : (images.getD i default).loaded = true)
    (hd : (images.getD i default).data = some bytes)
    (ht : d.displayTexture = some t) :
    (¬ (d.texWidth = (images.getD i default).width ∧
        d.texHeight = (images.getD i default).height) →
      (updateTexture images i d).snd =
        [TexEvent.destroyTex,
         TexEvent.createTex (images.getD i default).width (images.getD i default).height,
         TexEvent.uploadPixels bytes ((images.getD i default).width * 4),
         TexEvent.viewingMsg (i + 1) images.length (images.getD i default).filename] ∧
      (updateTexture images i d).fst =
        ⟨some ⟨(images.getD i default).width, (images.getD i default).height, bytes⟩,
         (images.getD i default).width, (images.getD i default).height⟩) ∧
    ((d.texWidth = (images.getD i default).width ∧
        d.texHeight = (images.getD i default).height) →
      (updateTexture images i d).snd =
        [TexEvent.uploadPixels bytes ((images.getD i default).width * 4),
         TexEvent.viewingMsg (i + 1) images.length (images.getD i default).filename] ∧
      (updateTexture images i d).fst =
        ⟨some ⟨t.w, t.h, bytes⟩, d.texWidth, d.texHeight⟩) := by
  have hlen : ¬ images.length = 0 := by omega
  have hsome : d.displayTexture.isSome = true := by rw [ht]; rfl
  constructor
  · intro hdim
    have hcond : d.displayTexture.isSome = true ∧
        (d.texWidth ≠ (images.getD i default).width ∨
         d.texHeight ≠ (images.getD i default).height) := ⟨hsome, by tauto⟩
    simp only [updateTexture, if_neg hlen, hd, hl]
    rw [if_pos hcond]
    exact ⟨rfl, rfl⟩
  · intro hdim
    have hcond : ¬ (d.displayTexture.isSome = true ∧
        (d.texWidth ≠ (images.getD i default).width ∨
         d.texHeight ≠ (images.getD i default).height)) := by tauto
    simp only [updateTexture, if_neg hlen, hd, hl]
    rw [if_neg hcond, if_pos hsome]
    refine ⟨rfl, ?_⟩
    rw [ht]
    rfl

/-- Witness for C8: `sampleRecord` (1×1) against a display state whose
texture is tagged 5×5 — the mismatch branch applies. -/
theorem c8_texture_recreation_witness :
    (¬ ((⟨some ⟨5, 5, []⟩, 5, 5⟩ : DisplayState).texWidth =
          (List.getD [sampleRecord] 0 default).width ∧
        (⟨some ⟨5, 5, []⟩, 5, 5⟩ : DisplayState).texHeight =
          (List.getD [sampleRecord] 0 default).height) →
      (updateTexture [sampleRecord] 0 ⟨some ⟨5, 5, []⟩, 5, 5⟩).snd =
        [TexEvent.destroyTex,
         TexEvent.createTex (List.getD [sampleRecord] 0 default).width
           (List.getD [sampleRecord] 0 default).height,
         TexEvent.uploadPixels [9, 9, 9, 255]
           ((List.getD [sampleRecord] 0 default).width * 4),
         TexEvent.viewingMsg (0 + 1) (List.length [sampleRecord])
           (List.getD [sampleRecord] 0 default).filename] ∧
      (updateTexture [sampleRecord] 0 ⟨some ⟨5, 5, []⟩, 5, 5⟩).fst =
        ⟨some ⟨(List.getD [sampleRecord] 0 default).width,
            (List.getD [sampleRecord] 0 default).height, [9, 9, 9, 255]⟩,
         (List.getD [sampleRecord] 0 default).width,
         (List.getD [sampleRecord] 0 default).height⟩) ∧
    (((⟨some ⟨5, 5, []⟩, 5, 5⟩ : DisplayState).texWidth =
          (List.getD [sampleRecord] 0 default).width ∧
        (⟨some ⟨5, 5, []⟩, 5, 5⟩ : DisplayState).texHeight =
          (List.getD [sampleRecord] 0 default).height) →
      (updateTexture [sampleRecord] 0 ⟨some ⟨5, 5, []⟩, 5, 5⟩).snd =
        [TexEvent.uploadPixels [9, 9, 9, 255]
           ((List.getD [sampleRecord] 0 default).width * 4),
         TexEvent.viewingMsg (0 + 1) (List.length [sampleRecord])
           (List.getD [sampleRecord] 0 default).filename] ∧
      (updateTexture [sampleRecord] 0 ⟨some ⟨5, 5, []⟩, 5, 5⟩).fst =
        ⟨some ⟨(5 : Nat), (5 : Nat), [9, 9, 9, 255]⟩,
         (⟨some ⟨5, 5, []⟩, 5, 5⟩ : DisplayState).texWidth,
         (⟨some ⟨5, 5, []⟩, 5, 5⟩ : DisplayState).texHeight⟩) :=
  c8_texture_recreation [sampleRecord] 0 ⟨some ⟨5, 5, []⟩, 5, 5⟩ ⟨5, 5, []⟩
    [9, 9, 9, 255] (by decide) (by decide) (by decide) (by decide)

/-- C9 counterexample: in the two-record catalog
`[sampleRecord, failedRecord]`, making the failed record at index 1
active (as a navigation command does) and updating the display emits no
events at all — in particular no "now viewing index/total, filename"
message — refuting "a message is emitted after every navigation or
classification command regardless of which record is active". -/
theorem c9_counterexample :
    1 < List.length [sampleRecord, failedRecord] ∧
    (updateTexture [sampleRecord, failedRecord] 1 emptyDisplay).snd = [] := by
  decide

/-- C9 (amended): after a navigation or classification command whose
active record is loaded, the one-line message reporting the current
index, the catalog total and the active record's filename is emitted;
when the active record is not loaded (or its pixel buffer is null), no
message — indeed no display event — is emitted. -/
theorem c9_amended_viewing_message (images : List RawImage) (i : Nat) (d : DisplayState)
    (bytes : List Nat) (hi : i < images.length)
    (hl : (images.getD i default).loaded = true)
    (hd : (images.getD i default).data = some bytes) :
    TexEvent.viewingMsg (i + 1) images.length (images.getD i default).filename
      ∈ (updateTexture images i d).snd ∧
    (∀ (images2 : List RawImage) (i2 : Nat) (d2 : DisplayState),
      ((images2.getD i2 default).loaded = false ∨ (images2.getD i2 default).data = none) →
      (updateTexture images2 i2 d2).snd = []) := by
  constructor
  · have hlen : ¬ images.length = 0 := by omega
    simp only [updateTexture, if_neg hlen, hd, hl]
    split
    · simp
    · split <;> simp
  · intro images2 i2 d2 hnb
    rw [updateTexture_not_loaded images2 i2 d2 hnb]

/-- Witness for C9 (amended): presenting the loaded record at index 0 of
`[sampleRecord, failedRecord]` emits the "[1/2] Viewing: a.jpg"
message. -/
theorem c9_amended_viewing_message_witness :
    TexEvent.viewingMsg (0 + 1) (List.length [sampleRecord, failedRecord])
      (List.getD [sampleRecord, failedRecord] 0 default).filename
      ∈ (updateTexture [sampleRecord, failedRecord] 0 emptyDisplay).snd ∧
    (∀ (images2 : List RawImage) (i2 : Nat) (d2 : DisplayState),
      ((images2.getD i2 default).loaded = false ∨ (images2.getD i2 default).data = none) →
      (updateTexture images2 i2 d2).snd = []) :=
  c9_amended_viewing_message [sampleRecord, failedRecord] 0 emptyDisplay
    [9, 9, 9, 255] (by decide) (by decide) (by decide)

theorem set_get_self (l : List RawImage) (i : Nat) (h : i < l.length) :
    l.set i (l.get ⟨i, h⟩) = l := by
  apply List.ext_getElem
  · simp
  · intro j h1 h2
    simp only [List.getElem_set]
    split
    · subst j; rfl
    · rfl

theorem filename_ne_of_nodup (imgs : List RawImage)
    (hnd : (imgs.map RawImage.filename).Nodup) (j i : Nat)
    (hj : j < imgs.length) (hi : i < imgs.length) (hne : ¬ j = i) :
    ¬ (imgs.get ⟨j, hj⟩).filename = (imgs.get ⟨i, hi⟩).filename := by
  intro heq
  apply hne
  have hjm : j < (imgs.map RawImage.filename).length := by simpa using hj
  have him : i < (imgs.map RawImage.filename).length := by simpa using hi
  have hget : (imgs.map RawImage.filename).get ⟨j, hjm⟩ =
      (imgs.map RawImage.filename).get ⟨i, him⟩ := by
    simpa using heq
  have hfin := hnd.get_inj_iff.mp hget
  simpa using congrArg Fin.val hfin

theorem exists_good_set (imgs : List RawImage) (i : Nat) (hi : i < imgs.length)
    (img2 : RawImage) (name : String) :
    (∃ j : Nat, ∃ h : j < (imgs.set i img2).length,
        ((imgs.set i img2).get ⟨j, h⟩).filename = name ∧
        ((imgs.set i img2).get ⟨j, h⟩).status = ImageStatus.Good) ↔
    ((img2.filename = name ∧ img2.status = ImageStatus.Good) ∨
      (∃ j : Nat, ∃ h : j < imgs.length, ¬ j = i ∧
        (imgs.get ⟨j, h⟩).filename = name ∧
        (imgs.get ⟨j, h⟩).status = ImageStatus.Good)) := by
  constructor
  · rintro ⟨j, h, hn, hg⟩
    have hj : j < imgs.length := by simpa using h
    by_cases hji : i = j
    · left
      subst hji
      have hset : (imgs.set i img2).get ⟨i, h⟩ = img2 := by
        simp [List.get_eq_getElem, List.getElem_set]
      rw [hset] at hn hg
      exact ⟨hn, hg⟩
    · right
      have hset : (imgs.set i img2).get ⟨j, h⟩ = imgs.get ⟨j, hj⟩ := by
        simp [List.get_eq_getElem, List.getElem_set, hji]
      rw [hset] at hn hg
      exact ⟨j, hj, fun hc => hji hc.symm, hn, hg⟩
  · rintro (⟨hn, hg⟩ | ⟨j, hj, hne, hn, hg⟩)
    · refine ⟨i, by simpa using hi, ?_⟩
      have hset : (imgs.set i img2).get ⟨i, by simpa using hi⟩ = img2 := by
        simp [List.get_eq_getElem, List.getElem_set]
      rw [hset]
      exact ⟨hn, hg⟩
    · have hij : ¬ i = j := fun hc => hne hc.symm
      refine ⟨j, by simpa using hj, ?_⟩
      have hset : (imgs.set i img2).get ⟨j, by simpa using hj⟩ = imgs.get ⟨j, hj⟩ := by
        simp [List.get_eq_getElem, List.getElem_set, hij]
      rw [hset]
      exact ⟨hn, hg⟩

theorem sinkHas_accept_ops (s : Sink) (img : RawImage) (name : String) :
    sinkHas ((statusOps img s ImageStatus.Good).foldl applyOp s) name = true ↔
      (img.filename = name ∨ sinkHas s name = true) := by
  by_cases hh : sinkHas s img.filename = true
  · have hops : statusOps img s ImageStatus.Good =
        [FsOp.removeMarker img.filename, FsOp.createMarker img.filename img.fullPath] := by
      simp [statusOps, hh]
    rw [hops]
    simp only [List.foldl, applyOp]
    rw [sinkHas_create]
    constructor
    · rintro (h | h)
      · exact Or.inl h
      · exact Or.inr ((sinkHas_remove s img.filename name).mp h).1
    · rintro (h | h)
      · exact Or.inl h
      · by_cases hcn : name = img.filename
        · exact Or.inl hcn.symm
        · exact Or.inr ((sinkHas_remove s img.filename name).mpr ⟨h, hcn⟩)
  · have hops : statusOps img s ImageStatus.Good =
        [FsOp.createMarker img.filename img.fullPath] := by
      simp [statusOps, hh]
    rw [hops]
    simp only [List.foldl, applyOp]
    rw [sinkHas_create]

theorem sinkHas_reject_ops (s : Sink) (img : RawImage) (target : ImageStatus)
    (ht : ¬ target = ImageStatus.Good) (name : String) :
    sinkHas ((statusOps img s target).foldl applyOp s) name = true ↔
      (sinkHas s name = true ∧
        (sinkHas s img.filename = true → ¬ name = img.filename)) := by
  by_cases hh : sinkHas s img.filename = true
  · have hops : statusOps img s target = [FsOp.removeMarker img.filename] := by
      simp [statusOps, ht, hh]
    rw [hops]
    simp only [List.foldl, applyOp]
    rw [sinkHas_remove]
    constructor
    · rintro ⟨h1, h2⟩
      exact ⟨h1, fun _ => h2⟩
    · rintro ⟨h1, h2⟩
      exact ⟨h1, h2 hh⟩
  · have hops : statusOps img s target = [] := by
      simp [statusOps, ht, hh]
    rw [hops]
    simp only [List.foldl]
    constructor
    · intro h
      exact ⟨h, fun hc => absurd hc hh⟩
    · rintro ⟨h, _⟩
      exact h

theorem recoveryScan_establishes (images : List RawImage) (sink : Sink)
    (hfresh : ∀ img ∈ images, img.status = ImageStatus.Neutral)
    (hsub : ∀ p ∈ sink, p.fst ∈ images.map RawImage.filename) :
    markerInvariant (recoveryScan sink images) sink := by
  intro name
  constructor
  · intro hhas
    obtain ⟨p, hpmem, hpname⟩ := (sinkHas_iff sink name).mp hhas
    have hmem : name ∈ images.map RawImage.filename := by
      rw [← hpname]
      exact hsub p hpmem
    obtain ⟨img, himg, hname⟩ := List.mem_map.mp hmem
    obtain ⟨⟨j, hj⟩, hgetj⟩ := List.mem_iff_get.mp himg
    have hlen2 : j < (recoveryScan sink images).length := by
      simpa [recoveryScan] using hj
    refine ⟨j, hlen2, ?_⟩
    have hget2 : (recoveryScan sink images).get ⟨j, hlen2⟩ =
        recoverStatus sink (images.get ⟨j, hj⟩) := by
      simp [recoveryScan]
    rw [hget2, hgetj]
    have hh : sinkHas sink img.filename = true := by
      rw [hname]
      exact hhas
    simp only [recoverStatus, if_pos hh]
    exact ⟨hname, trivial⟩
  · rintro ⟨j, h, hn, hg⟩
    have hj : j < images.length := by simpa [recoveryScan] using h
    have hget2 : (recoveryScan sink images).get ⟨j, h⟩ =
        recoverStatus sink (images.get ⟨j, hj⟩) := by
      simp [recoveryScan]
    rw [hget2] at hn hg
    by_cases hh : sinkHas sink (images.get ⟨j, hj⟩).filename = true
    · simp only [recoverStatus, if_pos hh] at hn
      have hn2 : (images.get ⟨j, hj⟩).filename = name := hn
      rw [← hn2]
      exact hh
    · simp only [recoverStatus, if_neg hh] at hg
      have hfr := hfresh (images.get ⟨j, hj⟩) (List.get_mem images j hj)
      rw [hfr] at hg
      cases hg

theorem keyUp_preserves (imgs : List RawImage) (s : Sink) (i : Nat)
    (hi : i < imgs.length) (hnd : (imgs.map RawImage.filename).Nodup)
    (hinv : markerInvariant imgs s) :
    markerInvariant (keyUpCommand imgs s i).fst (keyUpCommand imgs s i).snd := by
  have hD : imgs.getD i default = imgs.get ⟨i, hi⟩ := getD_eq_get imgs i hi
  by_cases hg : (imgs.get ⟨i, hi⟩).status = ImageStatus.Good
  · have hcmd : keyUpCommand imgs s i = (imgs, s) := by
      simp only [keyUpCommand, hD, markAccepted, setReviewStatus_noop _ _ _ hg]
      rw [set_get_self imgs i hi]
    rw [hcmd]
    exact hinv
  · have hcmd : keyUpCommand imgs s i =
        (imgs.set i { imgs.get ⟨i, hi⟩ with status := ImageStatus.Good },
         (statusOps (imgs.get ⟨i, hi⟩) s ImageStatus.Good).foldl applyOp s) := by
      simp only [keyUpCommand, hD, markAccepted, setReviewStatus_step _ _ _ hg]
    rw [hcmd]
    unfold markerInvariant
    intro name
    rw [sinkHas_accept_ops s (imgs.get ⟨i, hi⟩) name,
      exists_good_set imgs i hi _ name]
    have hinvn := hinv name
    constructor
    · rintro (hfn | hsn)
      · exact Or.inl ⟨hfn, rfl⟩
      · obtain ⟨j, hj, hn, hgj⟩ := hinvn.mp hsn
        right
        refine ⟨j, hj, ?_, hn, hgj⟩
        rintro rfl
        exact hg hgj
    · rintro (⟨hfn, _⟩ | ⟨j, hj, hne, hn, hgj⟩)
      · exact Or.inl hfn
      · exact Or.inr (hinvn.mpr ⟨j, hj, hn, hgj⟩)

theorem keyDown_preserves (imgs : List RawImage) (s : Sink) (i : Nat)
    (hi : i < imgs.length) (hnd : (imgs.map RawImage.filename).Nodup)
    (hinv : markerInvariant imgs s) :
    markerInvariant (keyDownCommand imgs s i).fst (keyDownCommand imgs s i).snd := by
  have hD : imgs.getD i default = imgs.get ⟨i, hi⟩ := getD_eq_get imgs i hi
  rcases hst : (imgs.get ⟨i, hi⟩).status with _ | _ | _
  · -- Neutral → Bad
    have htarget : (if (imgs.get ⟨i, hi⟩).status = ImageStatus.Good then
        ImageStatus.Neutral else ImageStatus.Bad) = ImageStatus.Bad := by
      rw [hst]
      decide
    have hcmd : keyDownCommand imgs s i =
        (imgs.set i { imgs.get ⟨i, hi⟩ with status := ImageStatus.Bad },
         (statusOps (imgs.get ⟨i, hi⟩) s ImageStatus.Bad).foldl applyOp s) := by
      simp only [keyDownCommand, hD, markRejectedOrToggle, htarget,
        setReviewStatus_step _ _ _ (show ¬ (imgs.get ⟨i, hi⟩).status = ImageStatus.Bad by
          rw [hst]; decide)]
    rw [hcmd]
    unfold markerInvariant
    intro name
    rw [sinkHas_reject_ops s (imgs.get ⟨i, hi⟩) ImageStatus.Bad (by decide) name,
      exists_good_set imgs i hi _ name]
    have hinvn := hinv name
    constructor
    · rintro ⟨hsn, _⟩
      obtain ⟨j, hj, hn, hgj⟩ := hinvn.mp hsn
      right
      refine ⟨j, hj, ?_, hn, hgj⟩
      rintro rfl
      exact absurd hgj (by rw [hst]; decide)
    · rintro (⟨_, hbad⟩ | ⟨j, hj, hne, hn, hgj⟩)
      · simp at hbad
      · refine ⟨hinvn.mpr ⟨j, hj, hn, hgj⟩, ?_⟩
        intro _ hcn
        exact filename_ne_of_nodup imgs hnd j i hj hi hne (hn.trans hcn)
  · -- Good → Neutral (toggle off)
    have htarget : (if (imgs.get ⟨i, hi⟩).status = ImageStatus.Good then
        ImageStatus.Neutral else ImageStatus.Bad) = ImageStatus.Neutral := by
      rw [hst]
      decide
    have hcmd : keyDownCommand imgs s i =
        (imgs.set i { imgs.get ⟨i, hi⟩ with status := ImageStatus.Neutral },
         (statusOps (imgs.get ⟨i, hi⟩) s ImageStatus.Neutral).foldl applyOp s) := by
      simp only [keyDownCommand, hD, markRejectedOrToggle, htarget,
        setReviewStatus_step _ _ _ (show ¬ (imgs.get ⟨i, hi⟩).status = ImageStatus.Neutral by
          rw [hst]; decide)]
    rw [hcmd]
    unfold markerInvariant
    intro name
    rw [sinkHas_reject_ops s (imgs.get ⟨i, hi⟩) ImageStatus.Neutral (by decide) name,
      exists_good_set imgs i hi _ name]
    have hinvn := hinv name
    have hhas : sinkHas s (imgs.get ⟨i, hi⟩).filename = true :=
      (hinv (imgs.get ⟨i, hi⟩).filename).mpr ⟨i, hi, rfl, hst⟩
    constructor
    · rintro ⟨hsn, himp⟩
      have hnefn := himp hhas
      obtain ⟨j, hj, hn, hgj⟩ := hinvn.mp hsn
      right
      refine ⟨j, hj, ?_, hn, hgj⟩
      rintro rfl
      exact hnefn hn.symm
    · rintro (⟨_, hneu⟩ | ⟨j, hj, hne, hn, hgj⟩)
      · simp at hneu
      · refine ⟨hinvn.mpr ⟨j, hj, hn, hgj⟩, ?_⟩
        intro _ hcn
        exact filename_ne_of_nodup imgs hnd j i hj hi hne (hn.trans hcn)
  · -- Bad → Bad: the no-op guard fires, nothing changes
    have htarget : (if (imgs.get ⟨i, hi⟩).status = ImageStatus.Good then
        ImageStatus.Neutral else ImageStatus.Bad) = ImageStatus.Bad := by
      rw [hst]
      decide
    have hcmd : keyDownCommand imgs s i = (imgs, s) := by
      simp only [keyDownCommand, hD, markRejectedOrToggle, htarget,
        setReviewStatus_noop _ _ _ hst]
      rw [set_get_self imgs i hi]
    rw [hcmd]
    exact hinv

/-- C1: the persistence invariant — a link marker named F exists in the
sink iff the catalog record with filename F has review state `Good`
(Accepted) — is established by the startup recovery scan (on a fresh
all-`Neutral` catalog whose sink markers all name catalog files, as a
sink written by a prior session does) and is preserved by every
`MarkAccepted` and every `MarkRejectedOrToggle` command at any in-range
cursor, for catalogs with pairwise-distinct filenames. -/
theorem c1_marker_invariant_established_and_preserved
    (images : List RawImage) (sink : Sink)
    (hfresh : ∀ img ∈ images, img.status = ImageStatus.Neutral)
    (hsub : ∀ p ∈ sink, p.fst ∈ images.map RawImage.filename) :
    markerInvariant (recoveryScan sink images) sink ∧
    (∀ (imgs : List RawImage) (s : Sink) (i : Nat), i < imgs.length →
      (imgs.map RawImage.filename).Nodup → markerInvariant imgs s →
      markerInvariant (keyUpCommand imgs s i).fst (keyUpCommand imgs s i).snd) ∧
    (∀ (imgs : List RawImage) (s : Sink) (i : Nat), i < imgs.length →
      (imgs.map RawImage.filename).Nodup → markerInvariant imgs s →
      markerInvariant (keyDownCommand imgs s i).fst (keyDownCommand imgs s i).snd) :=
  ⟨recoveryScan_establishes images sink hfresh hsub,
   fun imgs s i hi hnd hinv => keyUp_preserves imgs s i hi hnd hinv,
   fun imgs s i hi hnd hinv => keyDown_preserves imgs s i hi hnd hinv⟩

/-- Witness for C1: the fresh two-record catalog with a sink holding the
marker "a.jpg" left by a prior session. -/
theorem c1_marker_invariant_established_and_preserved_witness :
    markerInvariant (recoveryScan sampleSink [freshRecordA, freshRecordB]) sampleSink ∧
    (∀ (imgs : List RawImage) (s : Sink) (i : Nat), i < imgs.length →
      (imgs.map RawImage.filename).Nodup → markerInvariant imgs s →
      markerInvariant (keyUpCommand imgs s i).fst (keyUpCommand imgs s i).snd) ∧
    (∀ (imgs : List RawImage) (s : Sink) (i : Nat), i < imgs.length →
      (imgs.map RawImage.filename).Nodup → markerInvariant imgs s →
      markerInvariant (keyDownCommand imgs s i).fst (keyDownCommand imgs s i).snd) :=
  c1_marker_invariant_established_and_preserved [freshRecordA, freshRecordB] sampleSink
    (by decide) (by decide)

end FastImageViewer
